import Mathlib

/-!
Verification of the JWT authentication demo (`src/app/main.py`).

Shallow embedding conventions:
* Wall-clock time is an `Int` counting seconds since an arbitrary epoch; it is
  threaded explicitly (`now`) into every function that reads the clock.
* The memcached user store (`mc.get("user:" ++ username)`) is modelled as a
  function `String → Option UserRecord`, keyed by username.
* bcrypt verification (`pwd_context.verify`) is an external primitive; it is
  passed in as an abstract boolean function `verify : String → String → Bool`.
* JWTs are modelled symbolically: a token records the payload it carries and
  the key/payload pair its signature was made over.  `jwtDecode` accepts the
  token exactly when the signature key matches and the signed payload equals
  the carried payload, mirroring HMAC verification; it then validates `exp`,
  as PyJWT does (signature strictly before expiry).
* Python dicts of JWT claims are association lists `List (String × Value)`;
  `dictSet` has Python `dict.update` semantics (replace in place, else append).
* Python truthiness of a claim value (`if not username`) is `pyFalsy`.
-/

namespace Demo3

/-- A JWT claim value: the demo only ever stores strings (`sub`) and
time instants (`exp`, seconds since epoch). -/
inductive Value where
  | str (s : String)
  | time (t : Int)
deriving DecidableEq, Repr

/-- A Python dict of claims, as an association list. -/
abbrev Dict := List (String × Value)

/-- First-match lookup, as Python `dict.get`. -/
def dictLookup (d : Dict) (k : String) : Option Value :=
  match d with
  | [] => none
  | (k2, v) :: rest => if k2 = k then some v else dictLookup rest k

/-- Python `d.update({k: v})`: replace the value in place if the key exists,
otherwise append the new entry at the end (insertion order). -/
def dictSet (d : Dict) (k : String) (v : Value) : Dict :=
  match d with
  | [] => [(k, v)]
  | (k2, v2) :: rest => if k2 = k then (k2, v) :: rest else (k2, v2) :: dictSet rest k v

/-- Python truthiness of a claim value: `""` and `0` are falsy. -/
def pyFalsy : Value → Bool
  | .str s => s == ""
  | .time t => t == 0

/-- Python f-string conversion of a claim value to a string (used when the
value is interpolated into the memcached key `user:...`). -/
def pyStr : Value → String
  | .str s => s
  | .time t => toString t

/-- Symbolic JWT: the carried payload plus the key/payload pair the signature
was computed over.  A forged or tampered token is one whose `sigKey` or
`sigPayload` disagrees with the verifier's key or the carried payload. -/
structure Jwt where
  payload : Dict
  sigKey : String
  sigPayload : Dict
deriving DecidableEq, Repr

/-- `jwt.encode(payload, key, algorithm)`: sign the payload with the key. -/
def jwtEncode (key : String) (p : Dict) : Jwt := ⟨p, key, p⟩

/-- Internal PyJWT error taxonomy as the demo distinguishes it:
`invalidSignature` (signature/forgery failure), `expiredSignature`
(`jwt.ExpiredSignatureError`), `decodeError` (other malformed-token cases,
e.g. a non-numeric `exp`). -/
inductive JwtError where
  | invalidSignature
  | expiredSignature
  | decodeError
deriving DecidableEq, Repr

/-- `jwt.decode(token, key, algorithms)`: verify the signature first, then
validate the `exp` claim (expired when `exp <= now`, zero leeway); a
present-but-non-numeric `exp` is a decode error; a missing `exp` is accepted. -/
def jwtDecode (key : String) (now : Int) (tok : Jwt) : Except JwtError Dict :=
  if tok.sigKey = key ∧ tok.sigPayload = tok.payload then
    match dictLookup tok.payload "exp" with
    | some (.time e) => if e ≤ now then .error .expiredSignature else .ok tok.payload
    | some (.str _) => .error .decodeError
    | none => .ok tok.payload
  else .error .invalidSignature

/-- `SECRET_KEY` from `main.py`. -/
def SECRET_KEY : String := "your-secret-key"

/-- `ALGORITHM` from `main.py` (fixed; the symbolic signature model folds the
algorithm into the key). -/
def ALGORITHM : String := "HS256"

/-- `ACCESS_TOKEN_EXPIRE_MINUTES = 2` from `main.py`. -/
def ACCESS_TOKEN_EXPIRE_MINUTES : Int := 2

/-- One user record from the memcached store (see `preload_memcache.py`).
`hashed_password`, `admin` and `disabled` are `Option`s because `main.py`
reads them defensively (`user.get(...)`): the field may be absent. -/
structure UserRecord where
  username : String
  full_name : String
  email : String
  hashed_password : Option String
  admin : Option Bool
  disabled : Option Bool
deriving DecidableEq, Repr

/-- An `HTTPException(status_code, detail)` surfaced to the caller. -/
structure HTTPError where
  status_code : Nat
  detail : String
deriving DecidableEq, Repr

/-- `LoginRequest` schema from `main.py`. -/
structure LoginRequest where
  username : String
  password : String
deriving DecidableEq, Repr

/-- `Token` response schema from `main.py`. -/
structure Token where
  access_token : Jwt
  token_type : String
deriving DecidableEq, Repr

/-- `get_user`: point lookup in the store (`mc.get("user:" ++ username)`). -/
def get_user (store : String → Option UserRecord) (username : String) :
    Option UserRecord :=
  store username

/-- `verify_password`: delegates to the external bcrypt primitive `verify`. -/
def verify_password (verify : String → String → Bool) (plain hashed : String) :
    Bool :=
  verify plain hashed

/-- `create_access_token(data, expires_delta)`: copy the claims, add
`exp = now + (expires_delta or timedelta(minutes=ACCESS_TOKEN_EXPIRE_MINUTES))`
and sign with `SECRET_KEY`.  Durations are in seconds; a zero `expires_delta`
is falsy in Python, so `expires_delta or default` falls back to the default. -/
def create_access_token (data : Dict) (expires_delta : Option Int) (now : Int) :
    Jwt :=
  let to_encode := data
  let expire := now +
    (match expires_delta with
     | some d => if d == 0 then 60 * ACCESS_TOKEN_EXPIRE_MINUTES else d
     | none => 60 * ACCESS_TOKEN_EXPIRE_MINUTES)
  jwtEncode SECRET_KEY (dictSet to_encode "exp" (.time expire))

/-- `get_current_user`: decode and verify the bearer token, map
`ExpiredSignatureError` to 401 "Token expired" and every other `PyJWTError`
to 401 "Invalid token"; on success extract `sub` (401 "Invalid token payload"
when absent or falsy), then re-fetch the principal from the store
(404 "User not found" when absent — this `HTTPException` is raised inside the
`try` block but is not a `PyJWTError`, so it propagates unchanged). -/
def get_current_user (now : Int) (store : String → Option UserRecord)
    (tok : Jwt) : Except HTTPError UserRecord :=
  match jwtDecode SECRET_KEY now tok with
  | .error .expiredSignature => .error ⟨401, "Token expired"⟩
  | .error _ => .error ⟨401, "Invalid token"⟩
  | .ok payload =>
    match dictLookup payload "sub" with
    | none => .error ⟨401, "Invalid token payload"⟩
    | some v =>
      if pyFalsy v then .error ⟨401, "Invalid token payload"⟩
      else
        match get_user store (pyStr v) with
        | none => .error ⟨404, "User not found"⟩
        | some user => .ok user

/-- `login` (`POST /token`): look the user up, verify the password against the
stored hash (`user.get("hashed_password", "")`), and mint a token whose `sub`
is the record's `username` field.  `if not user or not verify_password(...)`
short-circuits: when the lookup fails the second operand is not evaluated. -/
def login (store : String → Option UserRecord)
    (verify : String → String → Bool) (now : Int) (form : LoginRequest) :
    Except HTTPError Token :=
  match get_user store form.username with
  | none => .error ⟨401, "Incorrect username or password"⟩
  | some user =>
    if verify_password verify form.password (user.hashed_password.getD "") then
      .ok ⟨create_access_token [("sub", .str user.username)] none now, "bearer"⟩
    else .error ⟨401, "Incorrect username or password"⟩

/-- Instrumented `login`: same control flow, but also returns the list of
`(plain, hashed)` argument pairs on which `verify_password` was actually
invoked, mirroring Python's short-circuit `or` at line 159 of `main.py`. -/
def loginTrace (store : String → Option UserRecord)
    (verify : String → String → Bool) (now : Int) (form : LoginRequest) :
    Except HTTPError Token × List (String × String) :=
  match get_user store form.username with
  | none => (.error ⟨401, "Incorrect username or password"⟩, [])
  | some user =>
    let hashed := user.hashed_password.getD ""
    if verify_password verify form.password hashed then
      (.ok ⟨create_access_token [("sub", .str user.username)] none now, "bearer"⟩,
       [(form.password, hashed)])
    else (.error ⟨401, "Incorrect username or password"⟩, [(form.password, hashed)])

/-- `protected_route` (`GET /protected`): the payload returned once
`get_current_user` has authenticated the caller. -/
def protected_route (user : UserRecord) : String :=
  "Hello, " ++ user.full_name ++ "! This is a protected endpoint."

/-- `protected_admin_route` (`GET /protected2`), authorization step only:
`if not user.get("admin")` deny with 403, else welcome the admin.  A missing
`admin` field reads as `None`, which is falsy, like an explicit `False`. -/
def protected_admin_route (user : UserRecord) : Except HTTPError String :=
  if !(user.admin.getD false) then .error ⟨403, "Admin access required"⟩
  else .ok ("Welcome Admin " ++ user.full_name ++ "! You have access to this route.")

/-- Whether an authorization outcome is an allow (2xx) rather than a deny. -/
def isAllowed : Except HTTPError String → Bool
  | .ok _ => true
  | .error _ => false

/-- The full `GET /protected2` endpoint: authentication then authorization. -/
def protected2_endpoint (now : Int) (store : String → Option UserRecord)
    (tok : Jwt) : Except HTTPError String :=
  match get_current_user now store tok with
  | .error e => .error e
  | .ok user => protected_admin_route user

/-- Heap-level rendering of `create_access_token`, making the Python object
identities explicit for the frame property: the heap is a list of dict
objects, `dataRef` the caller's argument.  `data.copy()` allocates a fresh
object at address `heap.length`; `to_encode.update({"exp": expire})` mutates
only that fresh object. -/
def create_access_token_heap (heap : List Dict) (dataRef : Nat)
    (expires_delta : Option Int) (now : Int) : List Dict × Jwt :=
  let data := heap.getD dataRef []
  let toRef := heap.length
  let heap1 := heap ++ [data]
  let expire := now +
    (match expires_delta with
     | some d => if d == 0 then 60 * ACCESS_TOKEN_EXPIRE_MINUTES else d
     | none => 60 * ACCESS_TOKEN_EXPIRE_MINUTES)
  let heap2 := heap1.set toRef (dictSet (heap1.getD toRef []) "exp" (.time expire))
  (heap2, jwtEncode SECRET_KEY (heap2.getD toRef []))

/-- Sanity link: `login` is the first component of the instrumented run. -/
theorem login_eq_loginTrace (store : String → Option UserRecord)
    (verify : String → String → Bool) (now : Int) (form : LoginRequest) :
    login store verify now form = (loginTrace store verify now form).1 := by
  unfold login loginTrace
  cases get_user store form.username with
  | none => rfl
  | some user => by_cases h : verify_password verify form.password (user.hashed_password.getD "") <;> simp [h]

/-! Small computation lemmas about the concrete claim dictionaries. -/

theorem dictSet_single_sub (u : String) (v : Value) :
    dictSet [("sub", Value.str u)] "exp" v = [("sub", Value.str u), ("exp", v)] := rfl

theorem dictLookup_pair_exp (v w : Value) :
    dictLookup [("sub", v), ("exp", w)] "exp" = some w := rfl

theorem dictLookup_pair_sub (v w : Value) :
    dictLookup [("sub", v), ("exp", w)] "sub" = some v := rfl

/-! Concrete demo data, mirroring the records seeded by
`preload_memcache.py` (bcrypt hashes stand in as opaque strings; the
abstract `demoVerify` accepts exactly the seeded password/hash pairs). -/

def johnRecord : UserRecord :=
  ⟨"john", "John Doe", "johndoe@example.com", some "bcrypt$john", some true, some false⟩

def janeRecord : UserRecord :=
  ⟨"jane", "Jane Doe", "janedoe@example.com", some "bcrypt$jane", some false, some false⟩

def demoStore : String → Option UserRecord := fun u =>
  if u = "john" then some johnRecord
  else if u = "jane" then some janeRecord
  else none

def demoVerify : String → String → Bool := fun plain hashed =>
  (plain == "johnpword" && hashed == "bcrypt$john") ||
  (plain == "janepword" && hashed == "bcrypt$jane")

/-! Claim theorems. -/

/-- Claim C1: the spec (and the docstring of `get_current_user` itself) says a
correctly signed, unexpired token whose subject is absent from the store fails
with HTTP 401 like every other authentication failure.  The code instead
raises `HTTPException(status_code=404, detail="User not found")` at
`main.py:129`: evaluated on an empty store with a well-signed unexpired token
for subject "ghost", the outcome is status 404, not the 401 class. -/
theorem unknown_principal_yields_404 :
    get_current_user 0 (fun _ => none)
      (jwtEncode SECRET_KEY [("sub", Value.str "ghost"), ("exp", Value.time 100)]) =
      .error ⟨404, "User not found"⟩ := rfl

/-- Claim C6: the admin-gated operation consults only the `admin` flag of the
authenticated principal: absent or `false` yields the 403
"Admin access required" denial, `true` yields the 200 welcome payload. -/
theorem admin_route_checks_only_admin_flag (user : UserRecord) :
    protected_admin_route user =
      if user.admin = some true then
        .ok ("Welcome Admin " ++ user.full_name ++ "! You have access to this route.")
      else .error ⟨403, "Admin access required"⟩ := by
  cases h : user.admin with
  | none => simp [protected_admin_route, h]
  | some b => cases b <;> simp [protected_admin_route, h]

/-- Claim C7: for every username and issuance instant, the issued claim set is
exactly `{sub: username, exp: now + TTL}` with the default TTL of 2 minutes
(120 seconds) when no custom duration is supplied. -/
theorem token_claim_set_exact (u : String) (now : Int) :
    (create_access_token [("sub", Value.str u)] none now).payload =
      [("sub", Value.str u), ("exp", Value.time (now + 120))] := rfl

/-- Claim C2: an expired-but-correctly-signed token (current time at or past
`exp`) fails as `TokenExpired` — the 401 "Token expired" response — and the
underlying decode error is `expiredSignature`, never `invalidSignature`,
because the expiry check runs strictly after signature verification. -/
theorem expired_signed_token_yields_token_expired
    (p : Dict) (now e : Int) (store : String → Option UserRecord)
    (hexp : dictLookup p "exp" = some (.time e)) (hle : e ≤ now) :
    get_current_user now store (jwtEncode SECRET_KEY p) = .error ⟨401, "Token expired"⟩ ∧
    jwtDecode SECRET_KEY now (jwtEncode SECRET_KEY p) = .error .expiredSignature := by
  have hdec : jwtDecode SECRET_KEY now (jwtEncode SECRET_KEY p) = .error .expiredSignature := by
    unfold jwtDecode jwtEncode
    simp [hexp, hle]
  refine ⟨?_, hdec⟩
  unfold get_current_user
  rw [hdec]

/-- Claim C2 witness: a token signed over `{sub: "john", exp: 5}` presented at
time 5 is reported expired, with the internal `expiredSignature` error. -/
theorem expired_signed_token_yields_token_expired_witness :
    get_current_user 5 (fun _ => none)
      (jwtEncode SECRET_KEY [("sub", Value.str "john"), ("exp", Value.time 5)]) =
      .error ⟨401, "Token expired"⟩ ∧
    jwtDecode SECRET_KEY 5
      (jwtEncode SECRET_KEY [("sub", Value.str "john"), ("exp", Value.time 5)]) =
      .error .expiredSignature :=
  expired_signed_token_yields_token_expired _ 5 5 _
    (dictLookup_pair_exp _ _) (by norm_num)

/-- Claim C8: a correctly signed, unexpired token whose `sub` claim is absent
or the empty string is rejected with 401 "Invalid token payload"
(`MalformedClaims`) for every possible store state — the store lookup is
never reached, so its contents cannot influence the outcome. -/
theorem empty_or_missing_sub_rejected_before_lookup
    (p : Dict) (now e : Int)
    (hexp : dictLookup p "exp" = some (.time e)) (hlt : now < e)
    (hsub : dictLookup p "sub" = none ∨ dictLookup p "sub" = some (.str "")) :
    ∀ store : String → Option UserRecord,
      get_current_user now store (jwtEncode SECRET_KEY p) =
        .error ⟨401, "Invalid token payload"⟩ := by
  intro store
  have hdec : jwtDecode SECRET_KEY now (jwtEncode SECRET_KEY p) = .ok p := by
    unfold jwtDecode jwtEncode
    simp [hexp, not_le.mpr hlt]
  unfold get_current_user
  rw [hdec]
  rcases hsub with h | h <;> simp [h, pyFalsy]

/-- Claim C8 witness: a signed unexpired token with no `sub` claim is rejected
as malformed on the empty store. -/
theorem empty_or_missing_sub_rejected_before_lookup_witness :
    get_current_user 0 (fun _ => none)
      (jwtEncode SECRET_KEY [("exp", Value.time 10)]) =
      .error ⟨401, "Invalid token payload"⟩ :=
  empty_or_missing_sub_rejected_before_lookup [("exp", Value.time 10)] 0 10 rfl
    (by norm_num) (Or.inl rfl) _

/-- Claim C9: a login with an unknown username and a login with a known
username but a wrong password produce the identical response: status 401 with
the same generic "Incorrect username or password" body. -/
theorem login_failures_indistinguishable
    (store : String → Option UserRecord) (verify : String → String → Bool)
    (now : Int) (u1 p1 u2 p2 : String) (r : UserRecord)
    (h1 : store u1 = none) (h2 : store u2 = some r)
    (hv : verify p2 (r.hashed_password.getD "") = false) :
    login store verify now ⟨u1, p1⟩ = .error ⟨401, "Incorrect username or password"⟩ ∧
    login store verify now ⟨u2, p2⟩ = login store verify now ⟨u1, p1⟩ := by
  unfold login get_user verify_password
  simp [h1, h2, hv]

/-- Claim C9 witness: on the seeded demo store, an unknown user "ghost" and
the known user "jane" with a wrong password get identical 401 responses. -/
theorem login_failures_indistinguishable_witness :
    login demoStore demoVerify 0 ⟨"ghost", "pw"⟩ =
      .error ⟨401, "Incorrect username or password"⟩ ∧
    login demoStore demoVerify 0 ⟨"jane", "wrongpw"⟩ =
      login demoStore demoVerify 0 ⟨"ghost", "pw"⟩ :=
  login_failures_indistinguishable demoStore demoVerify 0 "ghost" "pw" "jane"
    "wrongpw" janeRecord rfl rfl rfl

/-! Store and verifier used to refute claim C3 as literally stated: the key
"alice" maps to a record whose `username` field is the empty string, so the
issued token's `sub` (taken from the record field, `main.py:163`) is falsy
and `get_current_user` rejects it. -/

def cexStore : String → Option UserRecord := fun u =>
  if u = "alice" then
    some ⟨"", "Alice", "alice@example.com", some "h", some false, some false⟩
  else none

def cexVerify : String → String → Bool := fun plain hashed =>
  plain == "pw" && hashed == "h"

/-- Claim C3 counterexample: ("alice", "pw") matches a record of `cexStore`
(the login succeeds and issues a token), yet immediately authenticating that
token — same store, time 0, well before the expiry at 120 — fails with
401 "Invalid token payload" instead of returning the record, because the
record's `username` field (which becomes the token's `sub`) is empty. -/
theorem issue_authenticate_roundtrip_cex :
    login cexStore cexVerify 0 ⟨"alice", "pw"⟩ =
      .ok ⟨jwtEncode SECRET_KEY [("sub", Value.str ""), ("exp", Value.time 120)], "bearer"⟩ ∧
    get_current_user 0 cexStore
      (jwtEncode SECRET_KEY [("sub", Value.str ""), ("exp", Value.time 120)]) =
      .error ⟨401, "Invalid token payload"⟩ :=
  ⟨rfl, rfl⟩

/-- Claim C3 as amended: for a record whose `username` field equals its store
key and is non-empty (the data model's "username is the lookup key"
well-formedness), a successful login followed by authentication before the
120-second expiry returns exactly that record. -/
theorem issue_authenticate_roundtrip
    (store : String → Option UserRecord) (verify : String → String → Bool)
    (now t2 : Int) (u p : String) (r : UserRecord)
    (hs : store u = some r) (hname : r.username = u) (hne : u ≠ "")
    (hv : verify p (r.hashed_password.getD "") = true)
    (ht : t2 < now + 120) :
    login store verify now ⟨u, p⟩ =
      .ok ⟨jwtEncode SECRET_KEY [("sub", Value.str u), ("exp", Value.time (now + 120))], "bearer"⟩ ∧
    get_current_user t2 store
      (jwtEncode SECRET_KEY [("sub", Value.str u), ("exp", Value.time (now + 120))]) =
      .ok r := by
  constructor
  · unfold login get_user verify_password create_access_token
    rw [hs]
    simp only [hv, if_true, hname, dictSet_single_sub]
    norm_num [ACCESS_TOKEN_EXPIRE_MINUTES]
  · have hdec : jwtDecode SECRET_KEY t2
        (jwtEncode SECRET_KEY [("sub", Value.str u), ("exp", Value.time (now + 120))]) =
        .ok [("sub", Value.str u), ("exp", Value.time (now + 120))] := by
      unfold jwtDecode jwtEncode
      simp [dictLookup_pair_exp, not_le.mpr ht]
    simp only [get_current_user, hdec, dictLookup_pair_sub]
    simp [pyFalsy, pyStr, get_user, hne, hs]

/-- Claim C3 witness: on the seeded demo store, logging in as john and
authenticating the issued token 50 seconds later returns john's record. -/
theorem issue_authenticate_roundtrip_witness :
    login demoStore demoVerify 0 ⟨"john", "johnpword"⟩ =
      .ok ⟨jwtEncode SECRET_KEY [("sub", Value.str "john"), ("exp", Value.time 120)], "bearer"⟩ ∧
    get_current_user 50 demoStore
      (jwtEncode SECRET_KEY [("sub", Value.str "john"), ("exp", Value.time 120)]) =
      .ok johnRecord :=
  issue_authenticate_roundtrip demoStore demoVerify 0 50 "john" "johnpword"
    johnRecord rfl rfl (by decide) rfl (by norm_num)

/-- Claim C4 counterexample: for a login whose username is absent from the
store, the instrumented run shows that `verify_password` is never invoked —
Python's `if not user or not verify_password(...)` short-circuits — so the
computation performed does distinguish "no such user" from "wrong password",
contrary to the claim that verification still executes in that case. -/
theorem verify_skipped_on_unknown_user_cex :
    (loginTrace (fun _ => none) (fun _ _ => true) 0 ⟨"ghost", "pw"⟩).2 = [] := rfl

/-- Claim C4 as amended: when the username maps to a record that merely lacks
a `hashed_password` field, `verify_password` is still executed, against the
empty-string placeholder; but when the record is absent entirely the `or`
short-circuits and no verification is executed at all. -/
theorem verify_executes_on_missing_hash
    (store : String → Option UserRecord) (verify : String → String → Bool)
    (now : Int) (u p : String) (r : UserRecord)
    (hs : store u = some r) (hh : r.hashed_password = none) :
    (loginTrace store verify now ⟨u, p⟩).2 = [(p, "")] ∧
    ∀ (store2 : String → Option UserRecord) (verify2 : String → String → Bool)
      (now2 : Int) (u2 p2 : String), store2 u2 = none →
      (loginTrace store2 verify2 now2 ⟨u2, p2⟩).2 = [] := by
  constructor
  · simp only [loginTrace, get_user, verify_password, hs, hh]
    cases h : verify p (Option.getD none "") <;> simp [h]
  · intro store2 verify2 now2 u2 p2 h0
    unfold loginTrace get_user
    rw [h0]

/-- Claim C4 witness: a record without a `hashed_password` field still causes
one verification call, with the empty-string placeholder as the hash. -/
theorem verify_executes_on_missing_hash_witness :
    (loginTrace
      (fun u => if u = "nohash" then
          some ⟨"nohash", "No Hash", "nohash@example.com", none, some false, some false⟩
        else none)
      (fun _ _ => false) 0 ⟨"nohash", "pw"⟩).2 = [("pw", "")] :=
  (verify_executes_on_missing_hash _ _ 0 "nohash" "pw"
    ⟨"nohash", "No Hash", "nohash@example.com", none, some false, some false⟩
    rfl rfl).1

/-- A record with `disabled = true`, for exercising claim C5. -/
def disabledRecord : UserRecord :=
  ⟨"dis", "Disabled Doe", "dis@example.com", some "h", some true, some true⟩

/-- Claim C5: the `disabled` field is never consulted.  (i) A valid unexpired
token for a principal whose record has `disabled = true` still authenticates
and returns the record; (ii) flipping `disabled` on a record leaves the admin
route's response literally unchanged; (iii) the admin route's allow/deny
decision depends only on the `admin` flag. -/
theorem disabled_flag_never_consulted :
    (∀ (now e : Int) (store : String → Option UserRecord) (p : Dict)
       (u : String) (r : UserRecord),
       dictLookup p "sub" = some (.str u) → u ≠ "" →
       dictLookup p "exp" = some (.time e) → now < e →
       store u = some r → r.disabled = some true →
       get_current_user now store (jwtEncode SECRET_KEY p) = .ok r) ∧
    (∀ (r : UserRecord) (b : Option Bool),
       protected_admin_route { r with disabled := b } = protected_admin_route r) ∧
    (∀ (r1 r2 : UserRecord), r1.admin = r2.admin →
       isAllowed (protected_admin_route r1) = isAllowed (protected_admin_route r2)) := by
  refine ⟨?_, ?_, ?_⟩
  · intro now e store p u r hsub hne hexp hlt hs _
    have hdec : jwtDecode SECRET_KEY now (jwtEncode SECRET_KEY p) = .ok p := by
      unfold jwtDecode jwtEncode
      simp [hexp, not_le.mpr hlt]
    simp only [get_current_user, hdec, hsub]
    simp [pyFalsy, pyStr, get_user, hne, hs]
  · intro r b
    rfl
  · intro r1 r2 h
    unfold protected_admin_route isAllowed
    rw [h]
    cases hb : r2.admin.getD false <;> simp [hb]

/-- Claim C5 witness: the disabled principal "dis" authenticates with a valid
token; flipping its `disabled` flag leaves the admin route unchanged; and two
records with equal `admin` flags get the same allow/deny decision. -/
theorem disabled_flag_never_consulted_witness :
    get_current_user 0 (fun u => if u = "dis" then some disabledRecord else none)
      (jwtEncode SECRET_KEY [("sub", Value.str "dis"), ("exp", Value.time 100)]) =
      .ok disabledRecord ∧
    protected_admin_route { disabledRecord with disabled := some false } =
      protected_admin_route disabledRecord ∧
    isAllowed (protected_admin_route johnRecord) =
      isAllowed (protected_admin_route disabledRecord) :=
  ⟨disabled_flag_never_consulted.1 0 100 _ _ "dis" disabledRecord
      (dictLookup_pair_sub _ _) (by decide) (dictLookup_pair_exp _ _) (by norm_num)
      rfl rfl,
   disabled_flag_never_consulted.2.1 disabledRecord (some false),
   disabled_flag_never_consulted.2.2 johnRecord disabledRecord rfl⟩

/-- Frame lemma for the heap model: writing the freshly allocated cell (at the
old length, after appending one cell) does not change any pre-existing cell. -/
theorem getD_set_append_lt (l : List Dict) (extra x : Dict) (i : Nat)
    (h : i < l.length) :
    ((l ++ [extra]).set l.length x).getD i [] = l.getD i [] := by
  induction l generalizing i with
  | nil => exact absurd h (Nat.not_lt_zero i)
  | cons a as ih =>
    cases i with
    | zero => rfl
    | succ n => exact ih n (Nat.lt_of_succ_lt_succ h)

/-- Claim C10: `create_access_token` adds the expiry claim to a copy of its
`data` argument (`to_encode = data.copy()`), so the caller's dict holds
exactly the same entries after the call as before. -/
theorem create_access_token_preserves_caller_dict
    (heap : List Dict) (dataRef : Nat) (expires_delta : Option Int) (now : Int)
    (h : dataRef < heap.length) :
    (create_access_token_heap heap dataRef expires_delta now).1.getD dataRef [] =
      heap.getD dataRef [] := by
  unfold create_access_token_heap
  exact getD_set_append_lt heap _ _ dataRef h

/-- Claim C10 witness: on a one-cell heap holding `{sub: "john"}`, issuing a
token leaves the caller's dict unchanged. -/
theorem create_access_token_preserves_caller_dict_witness :
    0 < ([[("sub", Value.str "john")]] : List Dict).length ∧
    (create_access_token_heap [[("sub", Value.str "john")]] 0 none 7).1.getD 0 [] =
      ([[("sub", Value.str "john")]] : List Dict).getD 0 [] :=
  ⟨by decide,
   create_access_token_preserves_caller_dict [[("sub", Value.str "john")]] 0 none 7
     (by decide)⟩

end Demo3
